/-
Verification of `ab_test_analysis.py` (A/B Test Analysis Script).

Shallow embedding of the script's data model and operations:
  * events and the aggregation pass (`_process_data`) over ordered
    association lists, mirroring Python's insertion-ordered dicts;
  * `VariantResults` with the `__post_init__` recomputation of the
    conversion rate (rationals stand in for Python floats);
  * `calculate_significance`, with scipy's `chi2_contingency` as an
    oracle parameter (it is an external library, not repository code);
  * `calculate_sample_size_needed` over the reals, with scipy's
    `norm.ppf` as an oracle parameter;
  * `generate_report`, including the string formatting.
-/
import Mathlib

namespace ABTest

/-- An analytics event.  Only the five fields consumed by the script are
modelled; `event.get(k)` returning `None` for an absent key is modelled by
`Option`. -/
structure Event where
  name : Option String
  experimentId : Option String
  variantId : Option String
  variantName : Option String
  sessionId : Option String
deriving DecidableEq

/-- The per-(experiment, variant) accumulator built by `_process_data`:
display name, set of distinct session ids, conversion count, and the
(never populated) session-duration and interaction sample lists. -/
structure Accum where
  name : Option String
  users : Finset (Option String)
  conversions : Nat
  session_durations : List ℚ
  interactions : List ℚ
deriving DecidableEq

/-- `self.experiments`: an insertion-ordered mapping from experiment id to
an insertion-ordered mapping from variant id to accumulator, modelled as
nested association lists (Python dicts preserve insertion order, which
`generate_report` relies on). -/
abbrev Experiments := List (Option String × List (Option String × Accum))

/-- Association-list lookup (Python `k in d` / `d[k]`). -/
def alookup {V : Type} (k : Option String) : List (Option String × V) → Option V
  | [] => none
  | (k', v) :: rest => if k' = k then some v else alookup k rest

/-- Apply `f` to the value stored at key `k` (Python `d[k] = f(d[k])`);
keys are left in place, unknown keys are untouched. -/
def updateAt {V : Type} (k : Option String) (f : V → V) :
    List (Option String × V) → List (Option String × V)
  | [] => []
  | (k', v) :: rest =>
      if k' = k then (k', f v) :: rest else (k', v) :: updateAt k f rest

/-- Lookup through both levels of `self.experiments`. -/
def lookup2 (exps : Experiments) (expId varId : Option String) : Option Accum :=
  match alookup expId exps with
  | none => none
  | some inner => alookup varId inner

/-- The fresh accumulator created on the first `ab_test_assigned` event for
a pair: `{'name': event.get('variantName', var_id), 'users': set(), ...}`. -/
def freshAccum (e : Event) : Accum :=
  { name := match e.variantName with
            | some n => some n
            | none => e.variantId
    users := ∅
    conversions := 0
    session_durations := []
    interactions := [] }

/-- One iteration of the event loop in `_process_data`. -/
def processEvent (exps : Experiments) (e : Event) : Experiments :=
  if e.name = some "ab_test_assigned" then
    let expId := e.experimentId
    let varId := e.variantId
    let exps1 := if (alookup expId exps).isSome then exps else exps ++ [(expId, [])]
    updateAt expId (fun inner =>
      let inner1 :=
        if (alookup varId inner).isSome then inner
        else inner ++ [(varId, freshAccum e)]
      updateAt varId (fun acc => { acc with users := insert e.sessionId acc.users }) inner1)
      exps1
  else if e.name = some "ab_test_conversion" then
    match alookup e.experimentId exps with
    | none => exps
    | some inner =>
      match alookup e.variantId inner with
      | none => exps
      | some _ =>
        updateAt e.experimentId
          (fun inner => updateAt e.variantId
            (fun acc => { acc with conversions := acc.conversions + 1 }) inner)
          exps
  else exps

/-- `_process_data`: fold the event list, in order, into the experiments map. -/
def processData (events : List Event) : Experiments :=
  events.foldl processEvent []

/-- `VariantResults` dataclass. -/
structure VariantResults where
  variant_id : Option String
  variant_name : Option String
  total_users : Nat
  conversions : Nat
  conversion_rate : ℚ
  avg_session_duration : ℚ
  avg_interactions : ℚ
deriving DecidableEq

/-- Constructing a `VariantResults` runs `__post_init__`, which overwrites
`conversion_rate` with `(conversions / total_users) * 100` when
`total_users > 0` and with `0.0` otherwise.  Every construction in the
script goes through the dataclass constructor, hence through this. -/
def VariantResults.make (id name : Option String) (total_users conversions : Nat)
    (avgDur avgInt : ℚ) : VariantResults :=
  { variant_id := id
    variant_name := name
    total_users := total_users
    conversions := conversions
    conversion_rate :=
      if total_users > 0 then ((conversions : ℚ) / (total_users : ℚ)) * 100 else 0
    avg_session_duration := avgDur
    avg_interactions := avgInt }

/-- `np.mean(xs) if xs else 0`. -/
def mean0 (xs : List ℚ) : ℚ :=
  if xs = [] then 0 else xs.sum / (xs.length : ℚ)

/-- `get_variant_results`: the ordered mapping from variant id to finalized
results for one experiment; `{}` when the experiment id is unknown. -/
def get_variant_results (exps : Experiments) (expId : Option String) :
    List (Option String × VariantResults) :=
  match alookup expId exps with
  | none => []
  | some inner =>
    inner.map (fun p =>
      (p.1, VariantResults.make p.1 p.2.name p.2.users.card p.2.conversions
        (mean0 p.2.session_durations) (mean0 p.2.interactions)))

/-- The dict returned by `calculate_significance`; `Option` fields model
keys that are present only on one branch. -/
structure SigResult where
  error : Option String
  p_value : Option ℚ
  significant : Bool
  confidence_level : Option ℚ
  rate_difference : Option ℚ
  relative_lift : Option ℚ
  chi_square : Option ℚ
  sample_size_adequate : Option Bool
deriving DecidableEq

/-- The scipy `chi2_contingency` oracle: given the two rows of the 2x2
observed table it returns the pair (chi-square statistic, p-value).  scipy
is an external dependency, so it enters the embedding as a parameter. -/
abbrev Chi2Oracle := (ℤ × ℤ) → (ℤ × ℤ) → ℚ × ℚ

/-- `_check_sample_size`: at least 100 users and 5 conversions per variant. -/
def check_sample_size (a b : VariantResults) : Bool :=
  decide (a.total_users ≥ 100) && decide (b.total_users ≥ 100) &&
  decide (a.conversions ≥ 5) && decide (b.conversions ≥ 5)

/-- `calculate_significance`. -/
def calculate_significance (scipyAvailable : Bool) (chi2 : Chi2Oracle)
    (a b : VariantResults) : SigResult :=
  if scipyAvailable = false then
    { error := some "scipy not available"
      p_value := none
      significant := false
      confidence_level := none
      rate_difference := none
      relative_lift := none
      chi_square := none
      sample_size_adequate := none }
  else
    let rowA : ℤ × ℤ := ((a.conversions : ℤ), (a.total_users : ℤ) - (a.conversions : ℤ))
    let rowB : ℤ × ℤ := ((b.conversions : ℤ), (b.total_users : ℤ) - (b.conversions : ℤ))
    let res := chi2 rowA rowB
    let p_value := res.2
    let rate_diff := b.conversion_rate - a.conversion_rate
    let rel_lift :=
      if a.conversion_rate > 0 then
        (b.conversion_rate - a.conversion_rate) / a.conversion_rate * 100
      else 0
    { error := none
      p_value := some p_value
      significant := decide (p_value < 5/100)
      confidence_level := some ((1 - p_value) * 100)
      rate_difference := some rate_diff
      relative_lift := some rel_lift
      chi_square := some res.1
      sample_size_adequate := some (check_sample_size a b) }

/- ---------- report string formatting (Python f-string semantics) ---------- -/

/-- `c * n` for strings (e.g. `"=" * 80`). -/
def strRepeat (c : Char) (n : Nat) : String :=
  String.mk (List.replicate n c)

/-- How Python's f-strings render the (possibly `None`) id values. -/
def fmtKey : Option String → String
  | some s => s
  | none => "None"

/-- Group a reversed digit list into blocks of three with commas. -/
def commaChunks (l : List Char) : List Char :=
  if _h : l.length ≤ 3 then l
  else (l.take 3) ++ [','] ++ commaChunks (l.drop 3)
termination_by l.length
decreasing_by simp; omega

/-- Python `f"{n:,}"` for an integer. -/
def fmtComma (n : ℤ) : String :=
  let digits := (toString n.natAbs).data
  (if n < 0 then "-" else "") ++ String.mk (commaChunks digits.reverse).reverse

/-- Round half to even, the rounding used by Python's float formatting. -/
def rhe (q : ℚ) : ℤ :=
  let f := ⌊q⌋
  let frac := q - (f : ℚ)
  if frac < 1/2 then f
  else if 1/2 < frac then f + 1
  else if f % 2 = 0 then f else f + 1

/-- Python `f"{q:.prec f}"` (fixed-point with `prec` decimals). -/
def fmtFixed (prec : Nat) (q : ℚ) : String :=
  let scale : ℤ := (10 : ℤ) ^ prec
  let m := rhe (|q| * (scale : ℚ))
  let ip := m / scale
  let fpStr := toString (m % scale).natAbs
  let pad := strRepeat '0' (prec - fpStr.length)
  (if q < 0 then "-" else "") ++ toString ip ++
    (if prec = 0 then "" else "." ++ pad ++ fpStr)

/-- Python `f"{q:+.prec f}"` (always-signed fixed-point). -/
def fmtSignFixed (prec : Nat) (q : ℚ) : String :=
  if q < 0 then fmtFixed prec q else "+" ++ fmtFixed prec q

/-- The scipy `stats.norm.ppf` oracle (inverse standard normal CDF). -/
abbrev PpfOracle := ℝ → ℝ

/-- `calculate_sample_size_needed`, over the reals (floats embedded as
reals, `math.asin`/`math.sqrt` as `Real.arcsin`/`Real.sqrt`). -/
noncomputable def calculate_sample_size_needed (scipyAvailable : Bool)
    (ppf : PpfOracle) (baseline_rate minimum_detectable_effect : ℝ)
    (alpha : ℝ := 0.05) (power : ℝ := 0.8) : ℤ :=
  if scipyAvailable = false then 0
  else
    let p1 := baseline_rate / 100
    let p2 := p1 * (1 + minimum_detectable_effect / 100)
    let effect_size := 2 * (Real.arcsin (Real.sqrt p2) - Real.arcsin (Real.sqrt p1))
    let z_alpha := ppf (1 - alpha / 2)
    let z_beta := ppf power
    let n := (z_alpha + z_beta) ^ 2 / effect_size ^ 2
    ⌈n⌉

instance : Inhabited VariantResults :=
  ⟨VariantResults.make none none 0 0 0 0⟩

/-- The per-variant performance block of `generate_report`. -/
def perfBlock (v : VariantResults) : List String :=
  ["\n" ++ fmtKey v.variant_name ++ " (" ++ fmtKey v.variant_id ++ "):",
   "  Total Users:       " ++ fmtComma v.total_users,
   "  Conversions:       " ++ fmtComma v.conversions,
   "  Conversion Rate:   " ++ fmtFixed 2 v.conversion_rate ++ "%",
   "  Avg Session:       " ++ fmtFixed 1 v.avg_session_duration ++ "s",
   "  Avg Interactions:  " ++ fmtFixed 1 v.avg_interactions]

/-- The lines appended for one non-control variant in the statistical
section of `generate_report` (the body of the `for variant in
variants[1:]` loop, including the recommendation; the `continue` after
the error line skips everything below it). -/
noncomputable def compBlock (scipyAvailable : Bool) (chi2 : Chi2Oracle)
    (ppf : PpfOracle) (control variant : VariantResults) : List String :=
  ["\n" ++ fmtKey variant.variant_name ++ " vs " ++ fmtKey control.variant_name ++ ":",
   strRepeat '-' 80] ++
  (let sig := calculate_significance scipyAvailable chi2 control variant
   match sig.error with
   | some err => ["  Error: " ++ err]
   | none =>
     ["  Conversion Rate Difference: " ++ fmtSignFixed 2 (sig.rate_difference.getD 0) ++ "%",
      "  Relative Lift:              " ++ fmtSignFixed 2 (sig.relative_lift.getD 0) ++ "%",
      "  P-value:                    " ++ fmtFixed 4 (sig.p_value.getD 0),
      "  Confidence Level:           " ++ fmtFixed 2 (sig.confidence_level.getD 0) ++ "%",
      "  Statistically Significant:  " ++
        (if sig.significant then "✓ YES" else "✗ NO"),
      "  Sample Size Adequate:       " ++
        (if sig.sample_size_adequate.getD false then "✓ YES" else "✗ NO"),
      "\n  Recommendation:"] ++
     (if !(sig.sample_size_adequate.getD false) then
        ["    Continue test - need ~" ++
         fmtComma (calculate_sample_size_needed scipyAvailable ppf
           (control.conversion_rate : ℝ) 10) ++ " users per variant"]
      else if sig.significant && decide (sig.relative_lift.getD 0 > 0) then
        ["    ✓ IMPLEMENT " ++ fmtKey variant.variant_name ++
         " - Shows significant improvement"]
      else if sig.significant && decide (sig.relative_lift.getD 0 < 0) then
        ["    ✗ REJECT " ++ fmtKey variant.variant_name ++
         " - Shows significant decline"]
      else
        ["    = NO CLEAR WINNER - Consider running longer or testing other variables"]))

/-- The full list that `generate_report` joins with newlines when it has at
least two variants; `control = variants[0]`. -/
noncomputable def reportLines (scipyAvailable : Bool) (chi2 : Chi2Oracle)
    (ppf : PpfOracle) (experiment_id : Option String)
    (variants : List VariantResults) : List String :=
  let control := variants.headI
  [strRepeat '=' 80,
   "A/B TEST REPORT: " ++ fmtKey experiment_id,
   strRepeat '=' 80,
   "",
   "VARIANT PERFORMANCE",
   strRepeat '-' 80] ++
  (variants.map perfBlock).flatten ++
  ["\n" ++ strRepeat '=' 80,
   "STATISTICAL ANALYSIS",
   strRepeat '=' 80] ++
  ((variants.drop 1).map (compBlock scipyAvailable chi2 ppf control)).flatten ++
  ["\n" ++ strRepeat '=' 80]

/-- `generate_report`. -/
noncomputable def generate_report (scipyAvailable : Bool) (chi2 : Chi2Oracle)
    (ppf : PpfOracle) (exps : Experiments) (experiment_id : Option String) : String :=
  let results := get_variant_results exps experiment_id
  if results.length < 2 then
    "Insufficient data for experiment: " ++ fmtKey experiment_id
  else
    String.intercalate "\n"
      (reportLines scipyAvailable chi2 ppf experiment_id (results.map Prod.snd))

/- ---------- concrete event streams used in witness instances ---------- -/

def asgnEv : Event :=
  { name := some "ab_test_assigned", experimentId := some "exp1",
    variantId := some "v1", variantName := some "Variant One",
    sessionId := some "s1" }

def convEv : Event :=
  { name := some "ab_test_conversion", experimentId := some "exp1",
    variantId := some "v1", variantName := none, sessionId := some "s9" }

def asgnEv2 : Event :=
  { name := some "ab_test_assigned", experimentId := some "exp2",
    variantId := some "v2", variantName := none, sessionId := some "s2" }

def asgnEv3 : Event :=
  { name := some "ab_test_assigned", experimentId := some "exp3",
    variantId := some "v3", variantName := some "Name A",
    sessionId := some "s31" }

def asgnEv3b : Event :=
  { name := some "ab_test_assigned", experimentId := some "exp3",
    variantId := some "v3", variantName := some "Name B",
    sessionId := some "s32" }

def acc3 : Accum :=
  { name := some "Name A", users := {some "s31"}, conversions := 0,
    session_durations := [], interactions := [] }

def evC6 : List Event :=
  [{ name := some "ab_test_assigned", experimentId := some "expA",
     variantId := some "vA", variantName := some "A", sessionId := some "sA" }]

def repEvs : List Event :=
  [{ name := some "ab_test_assigned", experimentId := some "expR",
     variantId := some "vC", variantName := some "Control", sessionId := some "r1" },
   { name := some "ab_test_assigned", experimentId := some "expR",
     variantId := some "vT", variantName := some "Treatment", sessionId := some "r2" }]

/- ---------- lemmas about the association-list operations ---------- -/

lemma alookup_updateAt_self {V : Type} (k : Option String) (f : V → V)
    (m : List (Option String × V)) :
    alookup k (updateAt k f m) = (alookup k m).map f := by
  induction m with
  | nil => simp [alookup, updateAt]
  | cons hd tl ih =>
    obtain ⟨k0, v⟩ := hd
    by_cases h : k0 = k <;> simp [alookup, updateAt, h, ih]

lemma alookup_updateAt_ne {V : Type} {k k' : Option String} (f : V → V)
    (m : List (Option String × V)) (h : k' ≠ k) :
    alookup k' (updateAt k f m) = alookup k' m := by
  induction m with
  | nil => simp [updateAt]
  | cons hd tl ih =>
    obtain ⟨k0, v⟩ := hd
    by_cases h0 : k0 = k
    · have hne : ¬(k = k') := fun hc => h hc.symm
      simp [alookup, updateAt, h0, hne]
    · simp [alookup, updateAt, h0, ih]

lemma alookup_append_of_none {V : Type} {k : Option String}
    {m : List (Option String × V)} (l : List (Option String × V))
    (h : alookup k m = none) :
    alookup k (m ++ l) = alookup k l := by
  induction m with
  | nil => simp
  | cons hd tl ih =>
    obtain ⟨k0, v⟩ := hd
    by_cases h0 : k0 = k
    · simp [alookup, h0] at h
    · simp [alookup, h0] at h ⊢
      exact ih h

lemma alookup_append_of_some {V : Type} {k : Option String}
    {m : List (Option String × V)} {v : V} (l : List (Option String × V))
    (h : alookup k m = some v) :
    alookup k (m ++ l) = some v := by
  induction m with
  | nil => simp [alookup] at h
  | cons hd tl ih =>
    obtain ⟨k0, v0⟩ := hd
    by_cases h0 : k0 = k
    · simp [alookup, h0] at h ⊢
      exact h
    · simp [alookup, h0] at h ⊢
      exact ih h

lemma updateAt_eq_self {V : Type} {k : Option String} {v : V}
    {m : List (Option String × V)} (f : V → V)
    (h : alookup k m = some v) (hf : f v = v) :
    updateAt k f m = m := by
  induction m with
  | nil => simp [alookup] at h
  | cons hd tl ih =>
    obtain ⟨k0, v0⟩ := hd
    by_cases h0 : k0 = k
    · simp [alookup, h0] at h
      simp [updateAt, h0, h, hf]
    · simp [alookup, h0] at h
      simp [updateAt, h0, ih h]

lemma updateAt_of_none {V : Type} {k : Option String}
    {m : List (Option String × V)} (f : V → V)
    (h : alookup k m = none) :
    updateAt k f m = m := by
  induction m with
  | nil => simp [updateAt]
  | cons hd tl ih =>
    obtain ⟨k0, v0⟩ := hd
    by_cases h0 : k0 = k
    · simp [alookup, h0] at h
    · simp [alookup, h0] at h
      simp [updateAt, h0, ih h]

/-- Master description of one aggregation step at the `lookup2` level:
an `ab_test_assigned` event inserts the session id into (a possibly
fresh) accumulator for its own key, an `ab_test_conversion` event bumps
`conversions` of an existing accumulator for its own key, and nothing
else changes. -/
lemma lookup2_processEvent (s : Experiments) (e : Event)
    (expId varId : Option String) :
    lookup2 (processEvent s e) expId varId =
      if e.name = some "ab_test_assigned" ∧ expId = e.experimentId ∧ varId = e.variantId then
        some (let acc0 := (lookup2 s expId varId).getD (freshAccum e)
              { acc0 with users := insert e.sessionId acc0.users })
      else if e.name = some "ab_test_conversion" ∧ expId = e.experimentId ∧ varId = e.variantId then
        (lookup2 s expId varId).map
          (fun acc => { acc with conversions := acc.conversions + 1 })
      else lookup2 s expId varId := by
  by_cases hA : e.name = some "ab_test_assigned"
  · have hnc : ¬(e.name = some "ab_test_conversion" ∧
        expId = e.experimentId ∧ varId = e.variantId) := by
      rintro ⟨hc, -, -⟩
      rw [hA] at hc
      simp at hc
    by_cases hE : expId = e.experimentId
    · by_cases hV : varId = e.variantId
      · subst hE
        subst hV
        rw [if_pos ⟨hA, rfl, rfl⟩]
        simp only [processEvent, hA, reduceIte]
        rcases h1 : alookup e.experimentId s with _ | inner
        · have hbase : alookup e.experimentId
              (s ++ [(e.experimentId, ([] : List (Option String × Accum)))]) =
              some [] := by
            rw [alookup_append_of_none _ h1]
            simp [alookup]
          simp only [lookup2, h1, Option.isSome_none, Bool.false_eq_true, reduceIte,
            alookup_updateAt_self, hbase, Option.map_some']
          simp [alookup, updateAt, freshAccum]
        · simp only [lookup2, h1, Option.isSome_some, reduceIte, alookup_updateAt_self,
            Option.map_some']
          rcases h2 : alookup e.variantId inner with _ | acc
          · have hfresh : alookup e.variantId (inner ++ [(e.variantId, freshAccum e)]) =
                some (freshAccum e) := by
              rw [alookup_append_of_none _ h2]
              simp [alookup]
            simp only [h2, Option.isSome_none, Bool.false_eq_true, reduceIte,
              alookup_updateAt_self, hfresh, Option.map_some']
            rfl
          · simp only [h2, Option.isSome_some, reduceIte, alookup_updateAt_self,
              Option.map_some']
            rfl
      · rw [if_neg (by rintro ⟨-, -, hc⟩; exact hV hc), if_neg hnc]
        subst hE
        simp only [processEvent, hA, reduceIte]
        rcases h1 : alookup e.experimentId s with _ | inner
        · have hbase : alookup e.experimentId
              (s ++ [(e.experimentId, ([] : List (Option String × Accum)))]) =
              some [] := by
            rw [alookup_append_of_none _ h1]
            simp [alookup]
          simp only [lookup2, h1, Option.isSome_none, Bool.false_eq_true, reduceIte,
            alookup_updateAt_self, hbase, Option.map_some']
          rw [alookup_updateAt_ne _ _ hV]
          have hV' : ¬(e.variantId = varId) := fun hc => hV hc.symm
          simp [alookup, hV']
        · simp only [lookup2, h1, Option.isSome_some, reduceIte, alookup_updateAt_self,
            Option.map_some']
          rw [alookup_updateAt_ne _ _ hV]
          rcases h2 : alookup e.variantId inner with _ | acc
          · simp only [h2, Option.isSome_none, Bool.false_eq_true, reduceIte]
            rcases h3 : alookup varId inner with _ | acc'
            · rw [alookup_append_of_none _ h3]
              have hV' : ¬(e.variantId = varId) := fun hc => hV hc.symm
              simp [alookup, hV', h3]
            · rw [alookup_append_of_some _ h3]
          · simp only [h2, Option.isSome_some, reduceIte]
    · rw [if_neg (by rintro ⟨-, hc, -⟩; exact hE hc), if_neg hnc]
      simp only [processEvent, hA, reduceIte]
      have key : ∀ exps1 : Experiments, alookup expId exps1 = alookup expId s →
          lookup2 (updateAt e.experimentId
            (fun inner =>
              updateAt e.variantId
                (fun acc => { acc with users := insert e.sessionId acc.users })
                (if (alookup e.variantId inner).isSome then inner
                 else inner ++ [(e.variantId, freshAccum e)]))
            exps1) expId varId = lookup2 s expId varId := by
        intro exps1 hsame
        simp only [lookup2, alookup_updateAt_ne _ _ hE, hsame]
      rcases h1 : alookup e.experimentId s with _ | inner
      · simp only [h1, Option.isSome_none, Bool.false_eq_true, reduceIte]
        refine key _ ?_
        rcases h3 : alookup expId s with _ | v
        · rw [alookup_append_of_none _ h3]
          have hE' : ¬(e.experimentId = expId) := fun hc => hE hc.symm
          simp [alookup, hE', h3]
        · rw [alookup_append_of_some _ h3]
      · simp only [h1, Option.isSome_some, reduceIte]
        exact key s rfl
  · rw [if_neg (by rintro ⟨hc, -, -⟩; exact hA hc)]
    by_cases hC : e.name = some "ab_test_conversion"
    · have hx : processEvent s e =
          match alookup e.experimentId s with
          | none => s
          | some inner =>
            match alookup e.variantId inner with
            | none => s
            | some _ =>
              updateAt e.experimentId
                (fun inner => updateAt e.variantId
                  (fun acc => { acc with conversions := acc.conversions + 1 }) inner)
                s := by
        simp only [processEvent]
        rw [if_neg hA, if_pos hC]
      rw [hx]
      rcases h1 : alookup e.experimentId s with _ | inner
      · by_cases hEV : expId = e.experimentId ∧ varId = e.variantId
        · obtain ⟨hE, hV⟩ := hEV
          subst hE
          subst hV
          rw [if_pos ⟨hC, rfl, rfl⟩]
          simp [lookup2, h1]
        · rw [if_neg (by rintro ⟨-, h2, h3⟩; exact hEV ⟨h2, h3⟩)]
      · rcases h2 : alookup e.variantId inner with _ | acc
        · by_cases hEV : expId = e.experimentId ∧ varId = e.variantId
          · obtain ⟨hE, hV⟩ := hEV
            subst hE
            subst hV
            rw [if_pos ⟨hC, rfl, rfl⟩]
            simp [lookup2, h1, h2]
          · rw [if_neg (by rintro ⟨-, h3, h4⟩; exact hEV ⟨h3, h4⟩)]
            simp [lookup2, h2]
        · by_cases hE : expId = e.experimentId
          · by_cases hV : varId = e.variantId
            · subst hE
              subst hV
              rw [if_pos ⟨hC, rfl, rfl⟩]
              simp [lookup2, alookup_updateAt_self, h1, h2]
            · rw [if_neg (by rintro ⟨-, -, hc⟩; exact hV hc)]
              subst hE
              simp [lookup2, alookup_updateAt_self, h1, h2,
                alookup_updateAt_ne _ _ hV]
          · rw [if_neg (by rintro ⟨-, hc, -⟩; exact hE hc)]
            simp [lookup2, h2, alookup_updateAt_ne _ _ hE]
    · rw [if_neg (by rintro ⟨hc, -, -⟩; exact hC hc)]
      simp [processEvent, hA, hC]

/- ---------- derived facts about the aggregation pass ---------- -/

lemma mem_users_processEvent (s : Experiments) (e : Event)
    (expId varId sid : Option String) (acc : Accum)
    (hacc : lookup2 s expId varId = some acc) (hmem : sid ∈ acc.users) :
    ∃ acc', lookup2 (processEvent s e) expId varId = some acc' ∧ sid ∈ acc'.users := by
  rw [lookup2_processEvent]
  split_ifs with h1 h2
  · refine ⟨_, rfl, ?_⟩
    simp only [hacc, Option.getD_some]
    exact Finset.mem_insert_of_mem hmem
  · rw [hacc]
    exact ⟨_, rfl, hmem⟩
  · exact ⟨acc, hacc, hmem⟩

lemma mem_users_processList (es : List Event) (s : Experiments)
    (expId varId sid : Option String) (acc : Accum)
    (hacc : lookup2 s expId varId = some acc) (hmem : sid ∈ acc.users) :
    ∃ acc', lookup2 (es.foldl processEvent s) expId varId = some acc' ∧
      sid ∈ acc'.users := by
  induction es generalizing s acc with
  | nil => exact ⟨acc, hacc, hmem⟩
  | cons e es ih =>
    simp only [List.foldl_cons]
    obtain ⟨acc', h', hm'⟩ := mem_users_processEvent s e expId varId sid acc hacc hmem
    exact ih _ _ h' hm'

lemma sessionId_mem_after_assigned (s : Experiments) (e : Event)
    (hname : e.name = some "ab_test_assigned") :
    ∃ acc, lookup2 (processEvent s e) e.experimentId e.variantId = some acc ∧
      e.sessionId ∈ acc.users := by
  rw [lookup2_processEvent, if_pos ⟨hname, rfl, rfl⟩]
  exact ⟨_, rfl, Finset.mem_insert_self _ _⟩

/-- A repeated assignment whose session id is already recorded leaves the
whole state untouched. -/
lemma processEvent_assigned_noop (s : Experiments) (e : Event) (acc : Accum)
    (hname : e.name = some "ab_test_assigned")
    (hacc : lookup2 s e.experimentId e.variantId = some acc)
    (hmem : e.sessionId ∈ acc.users) :
    processEvent s e = s := by
  obtain ⟨inner, hin, hvar⟩ : ∃ inner, alookup e.experimentId s = some inner ∧
      alookup e.variantId inner = some acc := by
    unfold lookup2 at hacc
    rcases h : alookup e.experimentId s with _ | inner
    · rw [h] at hacc
      exact absurd hacc (by simp)
    · rw [h] at hacc
      exact ⟨inner, rfl, hacc⟩
  have hGacc : ({ acc with users := insert e.sessionId acc.users } : Accum) = acc := by
    have hu : insert e.sessionId acc.users = acc.users := Finset.insert_eq_self.mpr hmem
    cases acc
    simp_all
  have hF : updateAt e.variantId
      (fun a => { a with users := insert e.sessionId a.users })
      (if (alookup e.variantId inner).isSome then inner
       else inner ++ [(e.variantId, freshAccum e)]) = inner := by
    simp only [hvar, Option.isSome_some, reduceIte]
    exact updateAt_eq_self _ hvar hGacc
  simp only [processEvent, hname, reduceIte, hin, Option.isSome_some]
  exact updateAt_eq_self _ hin hF

lemma lookup2_isSome_processEvent (s : Experiments) (e : Event)
    (expId varId : Option String)
    (h : (lookup2 (processEvent s e) expId varId).isSome = true) :
    (lookup2 s expId varId).isSome = true ∨
      (e.name = some "ab_test_assigned" ∧ e.experimentId = expId ∧
        e.variantId = varId) := by
  rw [lookup2_processEvent] at h
  split_ifs at h with h1 h2
  · exact Or.inr ⟨h1.1, h1.2.1.symm, h1.2.2.symm⟩
  · left
    rcases hx : lookup2 s expId varId with _ | acc
    · rw [hx] at h
      simp at h
    · simp
  · exact Or.inl h

lemma lookup2_isSome_processList (es : List Event) (s : Experiments)
    (expId varId : Option String)
    (h : (lookup2 (es.foldl processEvent s) expId varId).isSome = true) :
    (lookup2 s expId varId).isSome = true ∨
      ∃ e ∈ es, e.name = some "ab_test_assigned" ∧
        e.experimentId = expId ∧ e.variantId = varId := by
  induction es generalizing s with
  | nil => exact Or.inl h
  | cons e es ih =>
    simp only [List.foldl_cons] at h
    rcases ih (processEvent s e) h with h' | ⟨e', he', hp⟩
    · rcases lookup2_isSome_processEvent s e expId varId h' with h'' | hp
      · exact Or.inl h''
      · exact Or.inr ⟨e, List.mem_cons_self e es, hp⟩
    · exact Or.inr ⟨e', List.mem_cons_of_mem _ he', hp⟩

/- ---------- claims ---------- -/

/-- C4: an `ab_test_assigned` event occurring a second time anywhere later
in the stream, with the same experiment id, variant id and session id,
leaves the aggregated state — in particular every variant's
`total_users` — exactly as if it had occurred once; hence repeated
assignment events for the same session contribute at most 1 to
`total_users`. -/
theorem C4_repeated_assignment (pre mid post : List Event) (e : Event)
    (hname : e.name = some "ab_test_assigned") :
    processData (pre ++ [e] ++ mid ++ [e] ++ post) =
      processData (pre ++ [e] ++ mid ++ post) ∧
    ∀ expId varId,
      (alookup varId (get_variant_results
          (processData (pre ++ [e] ++ mid ++ [e] ++ post)) expId)).map
        VariantResults.total_users =
      (alookup varId (get_variant_results
          (processData (pre ++ [e] ++ mid ++ post)) expId)).map
        VariantResults.total_users := by
  have hmain : processData (pre ++ [e] ++ mid ++ [e] ++ post) =
      processData (pre ++ [e] ++ mid ++ post) := by
    obtain ⟨acc1, hacc1, hm1⟩ :=
      sessionId_mem_after_assigned (pre.foldl processEvent []) e hname
    obtain ⟨acc2, hacc2, hm2⟩ := mem_users_processList mid
      (processEvent (pre.foldl processEvent []) e)
      e.experimentId e.variantId e.sessionId acc1 hacc1 hm1
    have hnoop := processEvent_assigned_noop _ e acc2 hname hacc2 hm2
    unfold processData
    simp only [List.foldl_append, List.foldl_cons, List.foldl_nil]
    rw [hnoop]
  exact ⟨hmain, fun expId varId => by rw [hmain]⟩

theorem C4_repeated_assignment_witness :
    asgnEv.name = some "ab_test_assigned" ∧
    processData ([] ++ [asgnEv] ++ [] ++ [asgnEv] ++ []) =
      processData ([] ++ [asgnEv] ++ [] ++ []) :=
  ⟨rfl, (C4_repeated_assignment [] [] [] asgnEv rfl).1⟩

/-- C5: a `ab_test_conversion` event for a pair with no accumulator leaves
the state exactly unchanged (no accumulator is created), and every
(experiment, variant) key present after processing stems from some
`ab_test_assigned` event of the stream with those ids. -/
theorem C5_conversions_never_create (s : Experiments) (e : Event)
    (es : List Event) (expId varId : Option String) :
    (e.name = some "ab_test_conversion" →
      lookup2 s e.experimentId e.variantId = none → processEvent s e = s) ∧
    ((lookup2 (processData es) expId varId).isSome = true →
      ∃ e' ∈ es, e'.name = some "ab_test_assigned" ∧
        e'.experimentId = expId ∧ e'.variantId = varId) := by
  constructor
  · intro hC hnone
    have hA : ¬(e.name = some "ab_test_assigned") := by
      rw [hC]
      simp
    have hx : processEvent s e =
        match alookup e.experimentId s with
        | none => s
        | some inner =>
          match alookup e.variantId inner with
          | none => s
          | some _ =>
            updateAt e.experimentId
              (fun inner => updateAt e.variantId
                (fun acc => { acc with conversions := acc.conversions + 1 }) inner)
              s := by
      simp only [processEvent]
      rw [if_neg hA, if_pos hC]
    rw [hx]
    unfold lookup2 at hnone
    rcases h1 : alookup e.experimentId s with _ | inner
    · rfl
    · rw [h1] at hnone
      simp at hnone
      simp [hnone]
  · intro h
    unfold processData at h
    rcases lookup2_isSome_processList es [] expId varId h with h' | h'
    · simp [lookup2, alookup] at h'
    · exact h'

theorem C5_conversions_never_create_witness :
    processEvent [] convEv = [] ∧
    ∃ e' ∈ [asgnEv2], e'.name = some "ab_test_assigned" ∧
      e'.experimentId = some "exp2" ∧ e'.variantId = some "v2" :=
  ⟨(C5_conversions_never_create [] convEv [] none none).1 rfl rfl,
   (C5_conversions_never_create [] asgnEv2 [asgnEv2]
     (some "exp2") (some "v2")).2 (by decide)⟩

/-- C10: an `ab_test_assigned` event for a pair whose accumulator already
exists changes only that accumulator's unique-user set (inserting the
session id); its display name, conversion count, duration and interaction
collections are untouched — even if the event carries a different
`variantName` — and every other (experiment, variant) key is untouched. -/
theorem C10_assigned_frame (s : Experiments) (e : Event) (acc : Accum)
    (hname : e.name = some "ab_test_assigned")
    (hacc : lookup2 s e.experimentId e.variantId = some acc) :
    lookup2 (processEvent s e) e.experimentId e.variantId =
      some { acc with users := insert e.sessionId acc.users } ∧
    ∀ expId varId, ¬(expId = e.experimentId ∧ varId = e.variantId) →
      lookup2 (processEvent s e) expId varId = lookup2 s expId varId := by
  constructor
  · rw [lookup2_processEvent, if_pos ⟨hname, rfl, rfl⟩, hacc]
    rfl
  · intro expId varId hne
    rw [lookup2_processEvent,
      if_neg (fun hcon => hne ⟨hcon.2.1, hcon.2.2⟩),
      if_neg (fun hcon => by rw [hname] at hcon; exact absurd hcon.1 (by simp))]

theorem C10_assigned_frame_witness :
    lookup2 (processEvent (processData [asgnEv3]) asgnEv3b)
        (some "exp3") (some "v3") =
      some { acc3 with users := insert (some "s32") acc3.users } ∧
    lookup2 (processEvent (processData [asgnEv3]) asgnEv3b)
        (some "other") (some "v3") =
      lookup2 (processData [asgnEv3]) (some "other") (some "v3") := by
  have h := C10_assigned_frame (processData [asgnEv3]) asgnEv3b acc3 rfl (by decide)
  exact ⟨h.1, h.2 (some "other") (some "v3") (by decide)⟩

/-- C6 (counterexample): a variant produced by `get_variant_results` from a
single assignment and no conversion has `conversion_rate = 0` while
`total_users = 1 ≠ 0`, so `conversion_rate` is not 0 *exactly* when
`total_users` is 0. -/
theorem C6_conversion_rate_counterexample :
    ((some "vA", VariantResults.make (some "vA") (some "A") 1 0 0 0) ∈
      get_variant_results (processData evC6) (some "expA")) ∧
    (VariantResults.make (some "vA") (some "A") 1 0 0 0).conversion_rate = 0 ∧
    (VariantResults.make (some "vA") (some "A") 1 0 0 0).total_users ≠ 0 := by
  refine ⟨?_, ?_, by decide⟩
  · show (some "vA", VariantResults.make (some "vA") (some "A") 1 0 0 0) ∈
      [(some "vA", VariantResults.make (some "vA") (some "A") 1 0 0 0)]
    exact List.mem_singleton.mpr rfl
  · norm_num [VariantResults.make]

/-- C6 (amended): every `VariantResults` produced by `get_variant_results`
has `conversion_rate = 0` whenever `total_users = 0` (regardless of
`conversions`), and `conversion_rate = conversions / total_users * 100`
whenever `total_users > 0` (which is 0 as soon as `conversions = 0`). -/
theorem C6_conversion_rate_amended (exps : Experiments) (expId : Option String)
    (p : Option String × VariantResults)
    (hp : p ∈ get_variant_results exps expId) :
    (p.2.total_users = 0 → p.2.conversion_rate = 0) ∧
    (0 < p.2.total_users →
      p.2.conversion_rate = (p.2.conversions : ℚ) / (p.2.total_users : ℚ) * 100) := by
  unfold get_variant_results at hp
  rcases h1 : alookup expId exps with _ | inner
  · rw [h1] at hp
    simp at hp
  · rw [h1] at hp
    simp only [List.mem_map] at hp
    obtain ⟨q, hq, rfl⟩ := hp
    constructor
    · intro h0
      simp only [VariantResults.make] at h0 ⊢
      simp [h0]
    · intro hpos
      simp only [VariantResults.make] at hpos ⊢
      simp [hpos]

theorem C6_conversion_rate_amended_witness :
    ((some "vA", VariantResults.make (some "vA") (some "A") 1 0 0 0) ∈
      get_variant_results (processData evC6) (some "expA")) ∧
    (0 < (VariantResults.make (some "vA") (some "A") 1 0 0 0).total_users →
      (VariantResults.make (some "vA") (some "A") 1 0 0 0).conversion_rate =
        ((VariantResults.make (some "vA") (some "A") 1 0 0 0).conversions : ℚ) /
          ((VariantResults.make (some "vA") (some "A") 1 0 0 0).total_users : ℚ) * 100) :=
  ⟨by
    show (some "vA", VariantResults.make (some "vA") (some "A") 1 0 0 0) ∈
      [(some "vA", VariantResults.make (some "vA") (some "A") 1 0 0 0)]
    exact List.mem_singleton.mpr rfl,
   (C6_conversion_rate_amended (processData evC6) (some "expA")
     (some "vA", VariantResults.make (some "vA") (some "A") 1 0 0 0)
     (by
       show (some "vA", VariantResults.make (some "vA") (some "A") 1 0 0 0) ∈
         [(some "vA", VariantResults.make (some "vA") (some "A") 1 0 0 0)]
       exact List.mem_singleton.mpr rfl)).2⟩

/-- C1: with scipy available, `calculate_significance` returns rate
difference `B − A`, relative lift `((B − A) / A) * 100` (and 0 when A's
rate is not positive), significance exactly when `p < 0.05`, confidence
`(1 − p) * 100`, the p-value and chi-square statistic of the oracle on
the observed table, and adequacy exactly when both variants have at
least 100 users and 5 conversions; on the 1000-users/50-conversions vs
1000-users/65-conversions scenario it yields rate difference `+1.5`,
relative lift `+30.0`, adequate sample size, and the oracle is applied
to the contingency table `[[50, 950], [65, 935]]`. -/
theorem C1_calculate_significance_spec (chi2 : Chi2Oracle) (a b : VariantResults) :
    ((calculate_significance true chi2 a b).rate_difference =
        some (b.conversion_rate - a.conversion_rate) ∧
     (calculate_significance true chi2 a b).relative_lift =
        some (if 0 < a.conversion_rate then
          (b.conversion_rate - a.conversion_rate) / a.conversion_rate * 100 else 0) ∧
     ((calculate_significance true chi2 a b).significant = true ↔
        (chi2 ((a.conversions : ℤ), (a.total_users : ℤ) - (a.conversions : ℤ))
              ((b.conversions : ℤ), (b.total_users : ℤ) - (b.conversions : ℤ))).2 <
          5/100) ∧
     (calculate_significance true chi2 a b).p_value =
        some (chi2 ((a.conversions : ℤ), (a.total_users : ℤ) - (a.conversions : ℤ))
                   ((b.conversions : ℤ), (b.total_users : ℤ) - (b.conversions : ℤ))).2 ∧
     (calculate_significance true chi2 a b).confidence_level =
        some ((1 -
          (chi2 ((a.conversions : ℤ), (a.total_users : ℤ) - (a.conversions : ℤ))
                ((b.conversions : ℤ), (b.total_users : ℤ) - (b.conversions : ℤ))).2) *
          100) ∧
     ((calculate_significance true chi2 a b).sample_size_adequate = some true ↔
        (100 ≤ a.total_users ∧ 100 ≤ b.total_users ∧
          5 ≤ a.conversions ∧ 5 ≤ b.conversions))) ∧
    ((calculate_significance true chi2
        (VariantResults.make (some "control") (some "Control") 1000 50 0 0)
        (VariantResults.make (some "treatment") (some "Treatment") 1000 65 0 0)).rate_difference =
        some (3/2) ∧
     (calculate_significance true chi2
        (VariantResults.make (some "control") (some "Control") 1000 50 0 0)
        (VariantResults.make (some "treatment") (some "Treatment") 1000 65 0 0)).relative_lift =
        some 30 ∧
     (calculate_significance true chi2
        (VariantResults.make (some "control") (some "Control") 1000 50 0 0)
        (VariantResults.make (some "treatment") (some "Treatment") 1000 65 0 0)).sample_size_adequate =
        some true ∧
     (calculate_significance true chi2
        (VariantResults.make (some "control") (some "Control") 1000 50 0 0)
        (VariantResults.make (some "treatment") (some "Treatment") 1000 65 0 0)).p_value =
        some (chi2 (50, 950) (65, 935)).2 ∧
     (calculate_significance true chi2
        (VariantResults.make (some "control") (some "Control") 1000 50 0 0)
        (VariantResults.make (some "treatment") (some "Treatment") 1000 65 0 0)).chi_square =
        some (chi2 (50, 950) (65, 935)).1) := by
  constructor
  · refine ⟨?_, ?_, ?_, ?_, ?_, ?_⟩ <;>
      simp [calculate_significance, check_sample_size, and_assoc]
  · refine ⟨?_, ?_, ?_, ?_, ?_⟩ <;>
      norm_num [calculate_significance, check_sample_size, VariantResults.make]

theorem C1_calculate_significance_spec_witness :
    (calculate_significance true (fun _ _ => ((0 : ℚ), (0 : ℚ)))
      (VariantResults.make (some "control") (some "Control") 1000 50 0 0)
      (VariantResults.make (some "treatment") (some "Treatment") 1000 65 0 0)).rate_difference =
      some (3/2) :=
  (C1_calculate_significance_spec (fun _ _ => ((0 : ℚ), (0 : ℚ)))
    (VariantResults.make (some "control") (some "Control") 1000 50 0 0)
    (VariantResults.make (some "treatment") (some "Treatment") 1000 65 0 0)).2.1

/-- C9: without scipy, `calculate_sample_size_needed` returns the plain
integer 0 for every input, with no error and no structural indicator. -/
theorem C9_sample_size_scipy_missing (ppf : PpfOracle)
    (baseline_rate minimum_detectable_effect alpha power : ℝ) :
    calculate_sample_size_needed false ppf baseline_rate minimum_detectable_effect
      alpha power = 0 := by
  simp [calculate_sample_size_needed]

theorem C9_sample_size_scipy_missing_witness :
    calculate_sample_size_needed false (fun _ => 0) 5 20 0.05 0.8 = 0 :=
  C9_sample_size_scipy_missing (fun _ => 0) 5 20 0.05 0.8

/-- C2: with scipy available, `calculate_sample_size_needed` returns the
ceiling of `((z(1 − alpha/2) + z(power))²) / h²` where
`h = 2(arcsin √p2 − arcsin √p1)`, `p1 = baseline_rate/100` and
`p2 = p1 (1 + mde/100)`; on the documented scenario
`(5.0, 20, 0.05, 0.8)` the result is that exact formula output and is a
positive integer whenever the two z-scores do not cancel. -/
theorem C2_sample_size_formula (ppf : PpfOracle)
    (baseline_rate minimum_detectable_effect alpha power : ℝ) :
    calculate_sample_size_needed true ppf baseline_rate minimum_detectable_effect
        alpha power =
      ⌈((ppf (1 - alpha / 2) + ppf power) ^ 2) /
        (2 * (Real.arcsin (Real.sqrt
            (baseline_rate / 100 * (1 + minimum_detectable_effect / 100))) -
          Real.arcsin (Real.sqrt (baseline_rate / 100)))) ^ 2⌉ ∧
    (ppf (1 - 0.05 / 2) + ppf 0.8 ≠ 0 →
      1 ≤ calculate_sample_size_needed true ppf 5 20 0.05 0.8) := by
  constructor
  · simp [calculate_sample_size_needed]
  · intro hz
    have key : calculate_sample_size_needed true ppf 5 20 0.05 0.8 =
        ⌈((ppf (1 - 0.05 / 2) + ppf 0.8) ^ 2) /
          (2 * (Real.arcsin (Real.sqrt ((5 : ℝ) / 100 * (1 + 20 / 100))) -
            Real.arcsin (Real.sqrt ((5 : ℝ) / 100)))) ^ 2⌉ := by
      simp [calculate_sample_size_needed]
    rw [key, Int.one_le_ceil_iff]
    apply div_pos
    · exact sq_pos_of_ne_zero hz
    · have hlt : Real.arcsin (Real.sqrt ((5 : ℝ) / 100)) <
          Real.arcsin (Real.sqrt ((5 : ℝ) / 100 * (1 + 20 / 100))) := by
        apply Real.strictMonoOn_arcsin
        · exact ⟨by linarith [Real.sqrt_nonneg ((5 : ℝ) / 100)],
            Real.sqrt_le_one.mpr (by norm_num)⟩
        · exact ⟨by linarith [Real.sqrt_nonneg ((5 : ℝ) / 100 * (1 + 20 / 100))],
            Real.sqrt_le_one.mpr (by norm_num)⟩
        · exact Real.sqrt_lt_sqrt (by norm_num) (by norm_num)
      have hne : 2 * (Real.arcsin (Real.sqrt ((5 : ℝ) / 100 * (1 + 20 / 100))) -
          Real.arcsin (Real.sqrt ((5 : ℝ) / 100))) ≠ 0 := by
        have : (0 : ℝ) < 2 * (Real.arcsin (Real.sqrt ((5 : ℝ) / 100 * (1 + 20 / 100))) -
            Real.arcsin (Real.sqrt ((5 : ℝ) / 100))) := by linarith
        exact ne_of_gt this
      exact sq_pos_of_ne_zero hne

theorem C2_sample_size_formula_witness :
    ((fun _ => (1 : ℝ)) (1 - 0.05 / 2) + (fun _ => (1 : ℝ)) 0.8 ≠ 0) ∧
    1 ≤ calculate_sample_size_needed true (fun _ => (1 : ℝ)) 5 20 0.05 0.8 :=
  ⟨by norm_num,
   (C2_sample_size_formula (fun _ => (1 : ℝ)) 5 20 0.05 0.8).2 (by norm_num)⟩

/-- C3: for fixed positive baseline rate, alpha and power, and for
positive detectable effects within the formula's domain (target
proportion at most 1), `calculate_sample_size_needed` is monotonically
decreasing in the minimum detectable effect. -/
theorem C3_sample_size_mono (ppf : PpfOracle)
    (baseline_rate alpha power mde1 mde2 : ℝ)
    (hbr : 0 < baseline_rate) (h1 : 0 < mde1) (h12 : mde1 < mde2)
    (hdom : baseline_rate / 100 * (1 + mde2 / 100) ≤ 1) :
    calculate_sample_size_needed true ppf baseline_rate mde2 alpha power ≤
      calculate_sample_size_needed true ppf baseline_rate mde1 alpha power := by
  have hp1 : (0 : ℝ) < baseline_rate / 100 := by linarith
  have hq1 : baseline_rate / 100 < baseline_rate / 100 * (1 + mde1 / 100) := by
    nlinarith
  have hq12 : baseline_rate / 100 * (1 + mde1 / 100) <
      baseline_rate / 100 * (1 + mde2 / 100) := by nlinarith
  have hs0 : Real.sqrt (baseline_rate / 100) <
      Real.sqrt (baseline_rate / 100 * (1 + mde1 / 100)) :=
    Real.sqrt_lt_sqrt (le_of_lt hp1) hq1
  have hs12 : Real.sqrt (baseline_rate / 100 * (1 + mde1 / 100)) ≤
      Real.sqrt (baseline_rate / 100 * (1 + mde2 / 100)) :=
    Real.sqrt_le_sqrt (le_of_lt hq12)
  have ha0 : Real.arcsin (Real.sqrt (baseline_rate / 100)) <
      Real.arcsin (Real.sqrt (baseline_rate / 100 * (1 + mde1 / 100))) := by
    apply Real.strictMonoOn_arcsin
    · exact ⟨by linarith [Real.sqrt_nonneg (baseline_rate / 100)],
        Real.sqrt_le_one.mpr (by nlinarith)⟩
    · exact ⟨by linarith [Real.sqrt_nonneg (baseline_rate / 100 * (1 + mde1 / 100))],
        Real.sqrt_le_one.mpr (by nlinarith)⟩
    · exact hs0
  have ha12 : Real.arcsin (Real.sqrt (baseline_rate / 100 * (1 + mde1 / 100))) ≤
      Real.arcsin (Real.sqrt (baseline_rate / 100 * (1 + mde2 / 100))) :=
    Real.monotone_arcsin hs12
  have hh1 : (0 : ℝ) < 2 * (Real.arcsin (Real.sqrt
      (baseline_rate / 100 * (1 + mde1 / 100))) -
      Real.arcsin (Real.sqrt (baseline_rate / 100))) := by linarith
  have hsq : (2 * (Real.arcsin (Real.sqrt
      (baseline_rate / 100 * (1 + mde1 / 100))) -
      Real.arcsin (Real.sqrt (baseline_rate / 100)))) ^ 2 ≤
      (2 * (Real.arcsin (Real.sqrt (baseline_rate / 100 * (1 + mde2 / 100))) -
      Real.arcsin (Real.sqrt (baseline_rate / 100)))) ^ 2 :=
    pow_le_pow_left₀ (le_of_lt hh1) (by linarith) 2
  have hdiv : ((ppf (1 - alpha / 2) + ppf power) ^ 2) /
      (2 * (Real.arcsin (Real.sqrt (baseline_rate / 100 * (1 + mde2 / 100))) -
        Real.arcsin (Real.sqrt (baseline_rate / 100)))) ^ 2 ≤
      ((ppf (1 - alpha / 2) + ppf power) ^ 2) /
      (2 * (Real.arcsin (Real.sqrt (baseline_rate / 100 * (1 + mde1 / 100))) -
        Real.arcsin (Real.sqrt (baseline_rate / 100)))) ^ 2 :=
    div_le_div_of_nonneg_left (sq_nonneg _) (pow_pos hh1 2) hsq
  simp only [calculate_sample_size_needed, reduceIte, Bool.true_eq_false]
  exact Int.ceil_le_ceil hdiv

theorem C3_sample_size_mono_witness :
    (0 : ℝ) < 5 ∧ (0 : ℝ) < 20 ∧ (20 : ℝ) < 40 ∧
    (5 : ℝ) / 100 * (1 + 40 / 100) ≤ 1 ∧
    calculate_sample_size_needed true (fun _ => (1 : ℝ)) 5 40 0.05 0.8 ≤
      calculate_sample_size_needed true (fun _ => (1 : ℝ)) 5 20 0.05 0.8 :=
  ⟨by norm_num, by norm_num, by norm_num, by norm_num,
   C3_sample_size_mono (fun _ => (1 : ℝ)) 5 0.05 0.8 20 40
     (by norm_num) (by norm_num) (by norm_num) (by norm_num)⟩

/-- C8: when fewer than two variants have accumulated results — including
an experiment id absent from the aggregation — `generate_report` returns
exactly the string `Insufficient data for experiment: <id>`. -/
theorem C8_insufficient_data (scipyAvailable : Bool) (chi2 : Chi2Oracle)
    (ppf : PpfOracle) (exps : Experiments) (experiment_id : Option String)
    (h : (get_variant_results exps experiment_id).length < 2) :
    generate_report scipyAvailable chi2 ppf exps experiment_id =
      "Insufficient data for experiment: " ++ fmtKey experiment_id := by
  unfold generate_report
  rw [if_pos h]

theorem C8_insufficient_data_witness :
    (get_variant_results [] (some "exp1")).length < 2 ∧
    generate_report false (fun _ _ => (0, 0)) (fun _ => 0) [] (some "exp1") =
      "Insufficient data for experiment: " ++ fmtKey (some "exp1") :=
  ⟨by decide,
   C8_insufficient_data false (fun _ _ => (0, 0)) (fun _ => 0) [] (some "exp1")
     (by decide)⟩

/-- C7: without scipy, `calculate_significance` returns a non-significant
result carrying the explicit unavailable indicator; each comparison
block of the report consists of exactly the header, the separator and
the error line — no computed numbers — and the error line appears in
the rendered report whenever at least two variants exist. -/
theorem C7_scipy_unavailable (chi2 : Chi2Oracle) (ppf : PpfOracle) :
    (∀ a b : VariantResults, calculate_significance false chi2 a b =
      { error := some "scipy not available", p_value := none, significant := false,
        confidence_level := none, rate_difference := none, relative_lift := none,
        chi_square := none, sample_size_adequate := none }) ∧
    (∀ control variant : VariantResults,
      compBlock false chi2 ppf control variant =
        ["\n" ++ fmtKey variant.variant_name ++ " vs " ++
           fmtKey control.variant_name ++ ":",
         strRepeat '-' 80,
         "  Error: scipy not available"]) ∧
    (∀ (exps : Experiments) (expId : Option String),
      2 ≤ (get_variant_results exps expId).length →
      "  Error: scipy not available" ∈
        reportLines false chi2 ppf expId
          ((get_variant_results exps expId).map Prod.snd)) := by
  have hsig : ∀ a b : VariantResults, calculate_significance false chi2 a b =
      { error := some "scipy not available", p_value := none, significant := false,
        confidence_level := none, rate_difference := none, relative_lift := none,
        chi_square := none, sample_size_adequate := none } := by
    intro a b
    simp [calculate_significance]
  have hcb : ∀ c v : VariantResults, compBlock false chi2 ppf c v =
      ["\n" ++ fmtKey v.variant_name ++ " vs " ++ fmtKey c.variant_name ++ ":",
       strRepeat '-' 80,
       "  Error: scipy not available"] := by
    intro c v
    simp [compBlock, hsig]
  refine ⟨hsig, hcb, ?_⟩
  intro exps expId hlen
  obtain ⟨v, hv⟩ : ∃ v, v ∈ ((get_variant_results exps expId).map Prod.snd).drop 1 := by
    have hne : ((get_variant_results exps expId).map Prod.snd).drop 1 ≠ [] := by
      have : ((get_variant_results exps expId).map Prod.snd).length =
          (get_variant_results exps expId).length := List.length_map _ _
      intro hc
      have := congrArg List.length hc
      simp [List.length_drop] at this
      omega
    exact List.exists_mem_of_ne_nil _ hne
  simp only [reportLines, List.mem_append]
  refine Or.inl (Or.inr ?_)
  simp only [List.mem_flatten, List.mem_map]
  exact ⟨compBlock false chi2 ppf
      ((get_variant_results exps expId).map Prod.snd).headI v,
    ⟨v, hv, rfl⟩, by simp [hcb]⟩

theorem C7_scipy_unavailable_witness :
    2 ≤ (get_variant_results (processData repEvs) (some "expR")).length ∧
    "  Error: scipy not available" ∈
      reportLines false (fun _ _ => (0, 0)) (fun _ => 0) (some "expR")
        ((get_variant_results (processData repEvs) (some "expR")).map Prod.snd) :=
  ⟨by decide,
   (C7_scipy_unavailable (fun _ _ => (0, 0)) (fun _ => 0)).2.2
     (processData repEvs) (some "expR") (by decide)⟩

end ABTest
